import Mathlib

/-
Shallow embedding of the MyBibliotheca persistence layer:
  src/app/graph_models.py   (entities, query builders)
  src/app/db_adapter.py     (DatabaseAdapter.delete_book_and_logs)
  src/kuzu_config.py        (KuzuDatabase.create_schema)
Machine integers are modelled as Int, dates as day numbers, timestamps as Int.
The Kuzu engine itself is third-party code; its evaluation of the generated
Cypher text is modelled explicitly on a `GraphStore` value, restricted to the
exact query shapes the builders emit.
-/

/-- Python-style dynamic values held in node properties, object attributes and
query parameters.  `vNone` is Python `None`; dates are day numbers. -/
inductive Value where
  | vNone : Value
  | vInt : Int → Value
  | vStr : String → Value
  | vBool : Bool → Value
  | vDate : Int → Value
deriving DecidableEq

/-- Python truthiness of a dynamic value: None, 0, the empty string and False
are falsy; date objects are always truthy. -/
def Value.truthy : Value → Bool
  | .vNone => false
  | .vInt i => i != 0
  | .vStr s => s.length != 0
  | .vBool b => b
  | .vDate _ => true

/-- Python truthiness of an optional integer id (`if not self.id`): None and 0
are falsy. -/
def idTruthy : Option Int → Bool
  | none => false
  | some i => i != 0

/-- Insertion-ordered parameter dictionary (the Python dict `self.params`). -/
abbrev Params := List (String × Value)

/-- Python dict assignment `d[k] = v`: update an existing key in place,
append a new key at the end. -/
def paramsSet : Params → String → Value → Params
  | [], k, v => [(k, v)]
  | (k0, v0) :: rest, k, v =>
    if k0 = k then (k0, v) :: rest else (k0, v0) :: paramsSet rest k v

/-- Python dict lookup `d.get(k)`. -/
def paramsGet : Params → String → Option Value
  | [], _ => none
  | (k0, v0) :: rest, k => if k0 = k then some v0 else paramsGet rest k

/-- Model of the `User` entity (graph_models.py 22-316).  Attributes that only
ever hold None or a datetime are `Option Int` (datetimes are always truthy, so
Option truthiness coincides); freely dynamic attributes are `Value`. -/
structure User where
  id : Option Int := none
  uid : Value := .vNone
  username : Value := .vNone
  email : Value := .vNone
  password_hash : Value := .vNone
  is_admin : Bool := false
  is_active : Bool := true
  created_at : Value := .vNone
  failed_login_attempts : Int := 0
  locked_until : Option Int := none
  last_login : Option Int := none
  share_current_reading : Bool := true
  share_reading_activity : Bool := true
  share_library : Bool := true
  password_must_change : Bool := false
  password_changed_at : Option Int := none
  reading_streak_offset : Int := 0
deriving DecidableEq

/-- Model of the `Book` entity (graph_models.py 392-553).  `user_id` is an
object-level attribute; the stored Book node has no such property (the CREATE
statement in `Book.save` does not list it). -/
structure Book where
  id : Option Int := none
  uid : Value := .vNone
  title : Value := .vNone
  author : Value := .vNone
  isbn : Value := .vNone
  user_id : Value := .vNone
  start_date : Value := .vNone
  finish_date : Value := .vNone
  cover_url : Value := .vNone
  want_to_read : Value := .vBool false
  library_only : Value := .vBool false
  description : Value := .vNone
  published_date : Value := .vNone
  page_count : Value := .vNone
  categories : Value := .vNone
  publisher : Value := .vNone
  language : Value := .vNone
  average_rating : Value := .vNone
  rating_count : Value := .vNone
  created_at : Value := .vNone
deriving DecidableEq

/-- Model of the `ReadingLog` entity (graph_models.py 646-715).  `book_id` and
`user_id` are object-level attributes only; the stored ReadingLog node carries
just id, date and created_at (the CREATE statement in `ReadingLog.save`). -/
structure ReadingLog where
  id : Option Int := none
  book_id : Value := .vNone
  user_id : Value := .vNone
  date : Value := .vNone
  created_at : Value := .vNone
deriving DecidableEq

/-- The property-graph store: one list per node table and per directed edge
table, mirroring the schema of src/kuzu_config.py.  Edge timestamps are not
read by any claim and are omitted from the edge model. -/
structure GraphStore where
  users : List User := []
  books : List Book := []
  logs : List ReadingLog := []
  owns : List (Int × Int) := []
  logged : List (Int × Int) := []
  readOn : List (Int × Int) := []
deriving DecidableEq

/-- MAX aggregate over the id column of one node table (NULL on an empty
table, modelled as `none`). -/
def maxId : List Int → Option Int
  | [] => none
  | x :: xs => some (xs.foldl max x)

/-- Model of `BaseGraphModel.get_next_id` (graph_models.py 11-20): the MAX id
of the table, with `(max_id or 0) + 1` turning NULL into 1 (on an int, `or 0`
is the identity since `0 or 0` is 0). -/
def get_next_id (ids : List Int) : Int := (maxId ids).getD 0 + 1

/-- The apostrophe character, which belongs to the special-character class of
`User.is_password_strong`. -/
def quoteChar : Char := Char.ofNat 39

/-- The special-character class of the final regex in `is_password_strong`. -/
def specialChars : List Char :=
  ['!', '@', '#', '$', '%', '^', '&', '*', '(', ')', '_', '+', '-', '=',
   '[', ']', '{', '}', ';', ':', '"', '\\', '|', ',', '.', '<', '>', '/', '?']
  ++ [quoteChar]

/-- Model of `User.is_password_strong` (graph_models.py 198-211): length at
least 8, plus one character from each of [A-Z], [a-z], the digits, and the
special class.  (Python `\d` also accepts non-ASCII digits; the claims only
involve ASCII passwords.) -/
def is_password_strong (password : String) : Bool :=
  if password.length < 8 then false
  else if !(password.data.any Char.isUpper) then false
  else if !(password.data.any Char.isLower) then false
  else if !(password.data.any Char.isDigit) then false
  else if !(password.data.any (fun c => specialChars.contains c)) then false
  else true

/-- Model of `User.set_password` (graph_models.py 184-192).  The werkzeug
`generate_password_hash` is salted and environment-dependent, so the hash is a
function parameter; `now` models `datetime.now(timezone.utc)`.  The method
raises before any attribute assignment, so the error branch pairs the
unchanged user with the raised message. -/
def set_password (u : User) (password : String) (validate : Bool)
    (hashFn : String → String) (now : Int) : User × Option String :=
  if validate && !is_password_strong password then
    (u, some "Password does not meet security requirements")
  else
    ({ u with
        password_hash := .vStr (hashFn password),
        password_changed_at := some now,
        password_must_change := if validate then false else u.password_must_change },
     none)

/-- Model of `User.is_account_locked` (graph_models.py 213-217):
`self.locked_until and self.locked_until > now`. -/
def is_account_locked (u : User) (now : Int) : Bool :=
  match u.locked_until with
  | some t => t > now
  | none => false

/-- The distinct-finish-date collection step of `get_reading_streak`
(graph_models.py 282-292): falsy finish dates are skipped; ISO strings are
parsed into dates (modelled by storing parsed dates as `vDate`) and strings
that fail to parse are skipped, as is every non-date value. -/
def finishDatesOf (books : List Book) : List Int :=
  books.filterMap fun b =>
    match b.finish_date with
    | .vDate d => some d
    | _ => none

/-- Model of `sorted(finish_dates, reverse=True)`: a weakly descending sort.
Python sorts a set here, so on the duplicate-free inputs this computation
receives, every descending sort produces the same list. -/
def sortDesc (l : List Int) : List Int := List.insertionSort (· ≥ ·) l

/-- The consecutive-day counting loop of `get_reading_streak`
(graph_models.py 308-314): count matches against the expected date, stop at
the first gap. -/
def streakLoop : List Int → Int → Nat
  | [], _ => 0
  | d :: rest, expected =>
    if d = expected then streakLoop rest (d - 1) + 1 else 0

/-- Model of `User.get_reading_streak` (graph_models.py 267-316) applied to
the result of `Book.query().filter_by(user_id=self.id).all()`; `today` models
`date.today()`.  On an integer offset, `(offset or 0)` is the identity. -/
def reading_streak_calc (today offset : Int) (books : List Book) : Int :=
  if books.isEmpty then 0 + offset
  else
    match sortDesc (finishDatesOf books).dedup with
    | [] => 0 + offset
    | most_recent :: rest =>
      if today - most_recent > 1 then 0 + offset
      else (streakLoop (most_recent :: rest) most_recent : Int) + offset


/-- Python errors raised by the query builders. -/
inductive PyError where
  | attributeError : String → PyError
  | typeError : String → PyError
deriving DecidableEq

/-- The auto-generated parameter name `f"param_{len(self.params)}"`. -/
def mkParamName (n : Nat) : String := "param_" ++ toString n

/-- Render the stored equality conditions as the Cypher fragments the source
stores literally (`f"{v}.{key} = ${param_name}"` for pattern variable v). -/
def renderConds (v : String) (cs : List (String × String)) : List String :=
  cs.map fun c => v ++ "." ++ c.1 ++ " = $" ++ c.2

/-- Cypher equality used in WHERE conjuncts: NULL never compares equal. -/
def valueEqB : Value → Value → Bool
  | .vNone, _ => false
  | _, .vNone => false
  | a, b => decide (a = b)

/-- WHERE-conjunct evaluation of one stored condition against one row. -/
def condHolds (get : String → Value) (ps : Params) (c : String × String) : Bool :=
  valueEqB (get c.1) ((paramsGet ps c.2).getD .vNone)

/-- Node-property access for User rows. -/
def User.getField (u : User) : String → Value
  | "id" => match u.id with | some i => .vInt i | none => .vNone
  | "uid" => u.uid
  | "username" => u.username
  | "email" => u.email
  | "password_hash" => u.password_hash
  | "is_admin" => .vBool u.is_admin
  | "is_active" => .vBool u.is_active
  | "created_at" => u.created_at
  | "failed_login_attempts" => .vInt u.failed_login_attempts
  | "locked_until" => match u.locked_until with | some t => .vDate t | none => .vNone
  | "last_login" => match u.last_login with | some t => .vDate t | none => .vNone
  | "share_current_reading" => .vBool u.share_current_reading
  | "share_reading_activity" => .vBool u.share_reading_activity
  | "share_library" => .vBool u.share_library
  | "password_must_change" => .vBool u.password_must_change
  | "password_changed_at" => match u.password_changed_at with | some t => .vDate t | none => .vNone
  | "reading_streak_offset" => .vInt u.reading_streak_offset
  | _ => .vNone

/-- Node-property access for Book rows (the node has no user_id property). -/
def Book.getField (b : Book) : String → Value
  | "id" => match b.id with | some i => .vInt i | none => .vNone
  | "uid" => b.uid
  | "title" => b.title
  | "author" => b.author
  | "isbn" => b.isbn
  | "start_date" => b.start_date
  | "finish_date" => b.finish_date
  | "cover_url" => b.cover_url
  | "want_to_read" => b.want_to_read
  | "library_only" => b.library_only
  | "description" => b.description
  | "published_date" => b.published_date
  | "page_count" => b.page_count
  | "categories" => b.categories
  | "publisher" => b.publisher
  | "language" => b.language
  | "average_rating" => b.average_rating
  | "rating_count" => b.rating_count
  | "created_at" => b.created_at
  | _ => .vNone

/-- Node-property access for ReadingLog rows: the node carries only id, date
and created_at (see the CREATE statement in `ReadingLog.save`). -/
def ReadingLog.getField (rl : ReadingLog) : String → Value
  | "id" => match rl.id with | some i => .vInt i | none => .vNone
  | "date" => rl.date
  | "created_at" => rl.created_at
  | _ => .vNone

/-- A total comparison on dynamic values, used only to model the engine's
ORDER BY; no claim depends on the particular order chosen. -/
def valueLeB : Value → Value → Bool
  | .vNone, _ => true
  | _, .vNone => false
  | .vInt a, .vInt b => decide (a ≤ b)
  | .vInt _, _ => true
  | _, .vInt _ => false
  | .vStr a, .vStr b => decide (a ≤ b)
  | .vStr _, _ => true
  | _, .vStr _ => false
  | .vBool a, .vBool b => !a || b
  | .vBool _, _ => true
  | _, .vBool _ => false
  | .vDate a, .vDate b => decide (a ≤ b)

/-- Stable insertion into a list sorted by a Value key. -/
def insertByKey {α : Type} (key : α → Value) (x : α) : List α → List α
  | [] => [x]
  | y :: ys => if valueLeB (key x) (key y) then x :: y :: ys else y :: insertByKey key x ys

/-- Stable sort by a Value key (engine model of ORDER BY). -/
def sortByKey {α : Type} (key : α → Value) : List α → List α
  | [] => []
  | x :: xs => insertByKey key x (sortByKey key xs)

/-- Engine model of the optional ORDER BY clause (an empty field name is falsy
in the builder and never reaches the query). -/
def applyOrder {α : Type} (get : α → String → Value) (f : Option String)
    (rows : List α) : List α :=
  match f with
  | some fld => if fld.length != 0 then sortByKey (fun r => get r fld) rows else rows
  | none => rows

/-- Engine model of the optional LIMIT clause. -/
def applyLimit {α : Type} (n : Option Int) (rows : List α) : List α :=
  match n with
  | some k => if k != 0 then rows.take k.toNat else rows
  | none => rows

/-- Builder state of `UserQuery` (graph_models.py 319-389).  The constructor
assigns `self.order_by = None`, which shadows the `order_by` method of the
class, so the `order_by` attribute can never change and `order_by_field` is
never created.  Conditions are stored as (field, parameter-name) pairs whose
rendering is exactly the string the source appends. -/
structure UserQuery where
  conditions : List (String × String) := []
  params : Params := []
  order_by : Option Value := none
  limit_val : Option Int := none
deriving DecidableEq

/-- Model of `UserQuery.filter_by` (graph_models.py 328-334): one equality
condition per keyword argument, parameter names generated from the current
dict size. -/
def UserQuery.filter_by (q : UserQuery) (kwargs : List (String × Value)) : UserQuery :=
  kwargs.foldl (fun q kv =>
    { q with
        conditions := q.conditions ++ [(kv.1, mkParamName q.params.length)],
        params := paramsSet q.params (mkParamName q.params.length) kv.2 }) q

/-- Calling `order_by` on a UserQuery: the attribute set in the constructor
shadows the method, so Python raises a TypeError (None is not callable). -/
def UserQuery.order_by_call (_q : UserQuery) (_field : String) : Except PyError UserQuery :=
  .error (.typeError "NoneType object is not callable")

/-- Model of `UserQuery.limit` (graph_models.py 350-353). -/
def UserQuery.limit (q : UserQuery) (count : Int) : UserQuery :=
  { q with limit_val := some count }

/-- The WHERE clause of the UserQuery terminals: the conjunction of the stored
conditions, or the literal "true" when there are none. -/
def UserQuery.whereClause (q : UserQuery) : String :=
  if q.conditions.isEmpty then "true"
  else String.intercalate " AND " (renderConds "u" q.conditions)

/-- Query text and parameters built by `UserQuery.count`
(graph_models.py 355-361); the params dict is not touched. -/
def UserQuery.countQuery (q : UserQuery) : String × Params :=
  ("MATCH (u:User) WHERE " ++ q.whereClause ++ " RETURN COUNT(u) AS count", q.params)

/-- Query text and parameters built by `UserQuery.first`
(graph_models.py 363-372). -/
def UserQuery.firstQuery (q : UserQuery) : String × Params :=
  ("MATCH (u:User) WHERE " ++ q.whereClause ++ " RETURN u LIMIT 1", q.params)

/-- Engine model of the query compiled by `UserQuery.count`. -/
def UserQuery.runCount (s : GraphStore) (q : UserQuery) : Nat :=
  (s.users.filter fun u => q.conditions.all (condHolds u.getField q.params)).length

/-- Engine model of `UserQuery.first`: execute the LIMIT 1 query and rebuild
the row through `User._from_dict` (the node carries every attribute, so the
rebuilt object is the row itself). -/
def UserQuery.first (s : GraphStore) (q : UserQuery) : Option User :=
  (s.users.filter fun u => q.conditions.all (condHolds u.getField q.params)).head?

/-- Model of `UserQuery.all` (graph_models.py 374-389).  The where clause and
query text of lines 376-377 are built, but line 379 reads
`self.order_by_field`, an attribute that no reachable code path ever created
(the constructor shadowed the `order_by` method), so the call raises
AttributeError before executing anything. -/
def UserQuery.all (_s : GraphStore) (q : UserQuery) : Except PyError (List User) :=
  let _query := "MATCH (u:User) WHERE " ++ q.whereClause ++ " RETURN u"
  .error (.attributeError "order_by_field")

/-- Builder state of `BookQuery` (graph_models.py 557-643).  `user_filter`
starts as Python None (`vNone`). -/
structure BookQuery where
  conditions : List (String × String) := []
  params : Params := []
  order_by_field : Option String := none
  limit_val : Option Int := none
  user_filter : Value := .vNone
deriving DecidableEq

/-- Model of `BookQuery.filter_by` (graph_models.py 567-576): the reserved key
user_id is stored as the traversal scope instead of becoming a condition. -/
def BookQuery.filter_by (q : BookQuery) (kwargs : List (String × Value)) : BookQuery :=
  kwargs.foldl (fun q kv =>
    if kv.1 = "user_id" then { q with user_filter := kv.2 }
    else
      { q with
          conditions := q.conditions ++ [(kv.1, mkParamName q.params.length)],
          params := paramsSet q.params (mkParamName q.params.length) kv.2 }) q

/-- Model of `BookQuery.order_by` (graph_models.py 583-586). -/
def BookQuery.order_by (q : BookQuery) (field : String) : BookQuery :=
  { q with order_by_field := some field }

/-- Model of `BookQuery.limit` (graph_models.py 588-591). -/
def BookQuery.limit (q : BookQuery) (count : Int) : BookQuery :=
  { q with limit_val := some count }

/-- The traversal base of `BookQuery.all`/`count` when a user scope is set: the
exact triple-quoted Python string, newlines and indentation included. -/
def bookTraversal : String :=
  "\n            MATCH (u:User \x7bid: $user_id\x7d)-[:OWNS]->(b:Book)\n            "

/-- Query text and parameter dict built by `BookQuery.all`
(graph_models.py 593-613): a truthy user scope switches the base to the OWNS
traversal and writes `self.params['user_id']`; conditions join with AND in a
WHERE clause that is omitted when empty; ORDER BY and LIMIT append when their
builder fields are truthy. -/
def BookQuery.allQuery (q : BookQuery) : String × Params :=
  let ps := if q.user_filter.truthy then paramsSet q.params "user_id" q.user_filter
            else q.params
  let base := if q.user_filter.truthy then bookTraversal else "MATCH (b:Book)"
  let base := if q.conditions.isEmpty then base
              else base ++ " WHERE " ++ String.intercalate " AND " (renderConds "b" q.conditions)
  let query := base ++ " RETURN b"
  let query := match q.order_by_field with
    | some f => if f.length != 0 then query ++ " ORDER BY b." ++ f else query
    | none => query
  let query := match q.limit_val with
    | some n => if n != 0 then query ++ " LIMIT " ++ toString n else query
    | none => query
  (query, ps)

/-- The builder state after `BookQuery.all` ran: only `self.params` mutated. -/
def BookQuery.afterAll (q : BookQuery) : BookQuery :=
  { q with params := q.allQuery.2 }

/-- Query text and parameter dict built by `BookQuery.count`
(graph_models.py 626-643): same base and WHERE as `all`, aggregate RETURN,
no ORDER BY or LIMIT. -/
def BookQuery.countQuery (q : BookQuery) : String × Params :=
  let ps := if q.user_filter.truthy then paramsSet q.params "user_id" q.user_filter
            else q.params
  let base := if q.user_filter.truthy then bookTraversal else "MATCH (b:Book)"
  let base := if q.conditions.isEmpty then base
              else base ++ " WHERE " ++ String.intercalate " AND " (renderConds "b" q.conditions)
  (base ++ " RETURN COUNT(b) AS count", ps)

/-- The builder state after `BookQuery.count` ran. -/
def BookQuery.afterCount (q : BookQuery) : BookQuery :=
  { q with params := q.countQuery.2 }

/-- Does some User node match `(u:User {id: $v})`? -/
def userExistsWithId (s : GraphStore) (v : Value) : Bool :=
  s.users.any fun u => valueEqB (u.getField "id") v

/-- Does some Book node match `(b:Book {id: $v})`? -/
def bookExistsWithId (s : GraphStore) (v : Value) : Bool :=
  s.books.any fun b => valueEqB (b.getField "id") v

/-- Does an OWNS edge link user id x to the book node b? -/
def ownsBookB (s : GraphStore) (x : Int) (b : Book) : Bool :=
  match b.id with
  | some bid => decide ((x, bid) ∈ s.owns)
  | none => false

/-- Rows matched by `MATCH (u:User {id: $user_id})-[:OWNS]->(b:Book)`: the
books linked by an OWNS edge from the user node bound to the parameter.  Row
order follows store order. -/
def ownedBooks (s : GraphStore) (v : Value) : List Book :=
  if userExistsWithId s v then
    s.books.filter fun b =>
      match v with
      | .vInt x => ownsBookB s x b
      | _ => false
  else []

/-- Model of `Book._from_dict(data, self.user_filter)` as invoked from the
builders (graph_models.py 491-515, 618): every node property is copied and the
object's user_id becomes `user_id or data.get('user_id')`; a stored node row
has no user_id property, which the store model represents as `vNone`. -/
def bookFromRow (b : Book) (uf : Value) : Book :=
  { b with user_id := if uf.truthy then uf else b.user_id }

/-- Engine model of executing the query compiled by `BookQuery.all`:
traversal or bare scan, WHERE conjuncts against the bound parameters,
ORDER BY, LIMIT, then object reconstruction per row. -/
def BookQuery.runAll (s : GraphStore) (q : BookQuery) : List Book :=
  let ps := q.allQuery.2
  let rows := if q.user_filter.truthy then ownedBooks s q.user_filter else s.books
  let rows := rows.filter fun b => q.conditions.all (condHolds b.getField ps)
  let rows := applyLimit q.limit_val (applyOrder Book.getField q.order_by_field rows)
  rows.map fun b => bookFromRow b q.user_filter

/-- Engine model of executing the query compiled by `BookQuery.count`. -/
def BookQuery.runCount (s : GraphStore) (q : BookQuery) : Nat :=
  let ps := q.countQuery.2
  let rows := if q.user_filter.truthy then ownedBooks s q.user_filter else s.books
  (rows.filter fun b => q.conditions.all (condHolds b.getField ps)).length

/-- Model of `BookQuery.first` (graph_models.py 621-624):
`books = self.limit(1).all(); return books[0] if books else None`. -/
def BookQuery.first (s : GraphStore) (q : BookQuery) : Option Book :=
  (BookQuery.runAll s (q.limit 1)).head?

/-- Builder state of `ReadingLogQuery` (graph_models.py 719-826): two scope
slots, both starting as Python None. -/
structure ReadingLogQuery where
  conditions : List (String × String) := []
  params : Params := []
  order_by_field : Option String := none
  limit_val : Option Int := none
  user_filter : Value := .vNone
  book_filter : Value := .vNone
deriving DecidableEq

/-- Model of `ReadingLogQuery.filter_by` (graph_models.py 730-741): user_id
and book_id are intercepted as scopes, everything else becomes a condition. -/
def ReadingLogQuery.filter_by (q : ReadingLogQuery) (kwargs : List (String × Value)) :
    ReadingLogQuery :=
  kwargs.foldl (fun q kv =>
    if kv.1 = "user_id" then { q with user_filter := kv.2 }
    else if kv.1 = "book_id" then { q with book_filter := kv.2 }
    else
      { q with
          conditions := q.conditions ++ [(kv.1, mkParamName q.params.length)],
          params := paramsSet q.params (mkParamName q.params.length) kv.2 }) q

/-- Model of `ReadingLogQuery.order_by` (graph_models.py 743-746). -/
def ReadingLogQuery.order_by (q : ReadingLogQuery) (field : String) : ReadingLogQuery :=
  { q with order_by_field := some field }

/-- Model of `ReadingLogQuery.limit` (graph_models.py 748-751). -/
def ReadingLogQuery.limit (q : ReadingLogQuery) (count : Int) : ReadingLogQuery :=
  { q with limit_val := some count }

/-- The three traversal patterns of the ReadingLog terminals
(graph_models.py 757-766), exactly as in the source. -/
def rlPatternBoth : String :=
  "(u:User \x7bid: $user_id\x7d)-[:LOGGED]->(rl:ReadingLog)<-[:READ_ON]-(b:Book \x7bid: $book_id\x7d)"

def rlPatternUser : String :=
  "(u:User \x7bid: $user_id\x7d)-[:LOGGED]->(rl:ReadingLog)"

def rlPatternBook : String :=
  "(b:Book \x7bid: $book_id\x7d)-[:READ_ON]->(rl:ReadingLog)"

/-- Pattern part and parameter-dict mutation shared by the ReadingLog
terminals: truthiness of the two scopes chooses among the three traversals and
the bare scan. -/
def ReadingLogQuery.patternAndParams (q : ReadingLogQuery) : String × Params :=
  if q.user_filter.truthy && q.book_filter.truthy then
    (rlPatternBoth,
     paramsSet (paramsSet q.params "user_id" q.user_filter) "book_id" q.book_filter)
  else if q.user_filter.truthy then
    (rlPatternUser, paramsSet q.params "user_id" q.user_filter)
  else if q.book_filter.truthy then
    (rlPatternBook, paramsSet q.params "book_id" q.book_filter)
  else ("(rl:ReadingLog)", q.params)

/-- Query text and parameter dict built by `ReadingLogQuery.all`
(graph_models.py 753-781): parts are accumulated and joined by single
spaces. -/
def ReadingLogQuery.allQuery (q : ReadingLogQuery) : String × Params :=
  let (pat, ps) := q.patternAndParams
  let parts := ["MATCH", pat]
  let parts := if q.conditions.isEmpty then parts
    else parts ++ ["WHERE " ++ String.intercalate " AND " (renderConds "rl" q.conditions)]
  let parts := parts ++ ["RETURN rl"]
  let parts := match q.order_by_field with
    | some f => if f.length != 0 then parts ++ ["ORDER BY rl." ++ f] else parts
    | none => parts
  let parts := match q.limit_val with
    | some n => if n != 0 then parts ++ ["LIMIT " ++ toString n] else parts
    | none => parts
  (String.intercalate " " parts, ps)

/-- The builder state after `ReadingLogQuery.all` ran. -/
def ReadingLogQuery.afterAll (q : ReadingLogQuery) : ReadingLogQuery :=
  { q with params := q.allQuery.2 }

/-- Query text and parameter dict built by `ReadingLogQuery.count`
(graph_models.py 801-826). -/
def ReadingLogQuery.countQuery (q : ReadingLogQuery) : String × Params :=
  let (pat, ps) := q.patternAndParams
  let parts := ["MATCH", pat]
  let parts := if q.conditions.isEmpty then parts
    else parts ++ ["WHERE " ++ String.intercalate " AND " (renderConds "rl" q.conditions)]
  let parts := parts ++ ["RETURN COUNT(rl) AS count"]
  (String.intercalate " " parts, ps)

/-- The builder state after `ReadingLogQuery.count` ran. -/
def ReadingLogQuery.afterCount (q : ReadingLogQuery) : ReadingLogQuery :=
  { q with params := q.countQuery.2 }

/-- Rows matched by the pattern the ReadingLog terminals choose for the stored
scopes. -/
def rlMatches (s : GraphStore) (q : ReadingLogQuery) : List ReadingLog :=
  if q.user_filter.truthy && q.book_filter.truthy then
    if userExistsWithId s q.user_filter && bookExistsWithId s q.book_filter then
      s.logs.filter fun rl =>
        match q.user_filter, q.book_filter, rl.id with
        | .vInt x, .vInt y, some lid =>
          decide ((x, lid) ∈ s.logged) && decide ((y, lid) ∈ s.readOn)
        | _, _, _ => false
    else []
  else if q.user_filter.truthy then
    if userExistsWithId s q.user_filter then
      s.logs.filter fun rl =>
        match q.user_filter, rl.id with
        | .vInt x, some lid => decide ((x, lid) ∈ s.logged)
        | _, _ => false
    else []
  else if q.book_filter.truthy then
    if bookExistsWithId s q.book_filter then
      s.logs.filter fun rl =>
        match q.book_filter, rl.id with
        | .vInt y, some lid => decide ((y, lid) ∈ s.readOn)
        | _, _ => false
    else []
  else s.logs

/-- Engine model of `ReadingLogQuery.all` (graph_models.py 753-794): match,
filter, order, limit, then build each returned object with
`book_id=self.book_filter, user_id=self.user_filter` and the node's own id,
date and created_at. -/
def ReadingLogQuery.runAll (s : GraphStore) (q : ReadingLogQuery) : List ReadingLog :=
  let ps := q.allQuery.2
  let rows := (rlMatches s q).filter fun rl => q.conditions.all (condHolds rl.getField ps)
  let rows := applyLimit q.limit_val (applyOrder ReadingLog.getField q.order_by_field rows)
  rows.map fun rl =>
    { book_id := q.book_filter, user_id := q.user_filter,
      date := rl.date, id := rl.id, created_at := rl.created_at }

/-- Engine model of the query compiled by `ReadingLogQuery.count`. -/
def ReadingLogQuery.runCount (s : GraphStore) (q : ReadingLogQuery) : Nat :=
  let ps := q.countQuery.2
  ((rlMatches s q).filter fun rl => q.conditions.all (condHolds rl.getField ps)).length

/-- Model of `ReadingLogQuery.first` (graph_models.py 796-799):
`logs = self.limit(1).all(); return logs[0] if logs else None`. -/
def ReadingLogQuery.first (s : GraphStore) (q : ReadingLogQuery) : Option ReadingLog :=
  (ReadingLogQuery.runAll s (q.limit 1)).head?

/-- Model of `User.get_reading_streak` at store level
(graph_models.py 267-316): fetch the user's books through
`Book.query().filter_by(user_id=self.id).all()`, then run the streak
computation on the result. -/
def User.get_reading_streak (s : GraphStore) (today : Int) (u : User) : Int :=
  let q := BookQuery.filter_by {}
    [("user_id", match u.id with | some i => .vInt i | none => .vNone)]
  reading_streak_calc today u.reading_streak_offset (BookQuery.runAll s q)

/-- The id column of the Book table. -/
def bookIds (s : GraphStore) : List Int := s.books.filterMap (·.id)

/-- The id column of the User table. -/
def userIds (s : GraphStore) : List Int := s.users.filterMap (·.id)

/-- The id column of the ReadingLog table. -/
def logIds (s : GraphStore) : List Int := s.logs.filterMap (·.id)

/-- Model of `User.save` (graph_models.py 54-102): assign the next id when the
current one is falsy, then CREATE the node. -/
def User.save (s : GraphStore) (u : User) : GraphStore × User :=
  let u := if idTruthy u.id then u else { u with id := some (get_next_id (userIds s)) }
  ({ s with users := s.users ++ [u] }, u)

/-- Model of `Book.save` (graph_models.py 417-484): assign the next id when the
current one is falsy, CREATE the node (whose property list omits user_id),
then CREATE the OWNS edge by matching `(u:User {id: $user_id})` and the book;
when either endpoint does not match, the edge CREATE matches nothing. -/
def Book.save (s : GraphStore) (b : Book) : GraphStore × Book :=
  let b := if idTruthy b.id then b else { b with id := some (get_next_id (bookIds s)) }
  let s := { s with books := s.books ++ [{ b with user_id := Value.vNone }] }
  let s :=
    match b.user_id, b.id with
    | .vInt uid, some bid =>
      if s.users.any (fun u => decide (u.id = some uid)) then { s with owns := s.owns ++ [(uid, bid)] }
      else s
    | _, _ => s
  (s, b)

/-- Model of `ReadingLog.save` (graph_models.py 656-704): assign the next id
when falsy, CREATE the node (id, date, created_at only), then CREATE the
LOGGED and READ_ON edges when their endpoints match. -/
def ReadingLog.save (s : GraphStore) (rl : ReadingLog) : GraphStore × ReadingLog :=
  let rl := if idTruthy rl.id then rl else { rl with id := some (get_next_id (logIds s)) }
  let s := { s with logs := s.logs ++ [{ rl with book_id := Value.vNone, user_id := Value.vNone }] }
  let s :=
    match rl.user_id, rl.id with
    | .vInt uid, some lid =>
      if s.users.any (fun u => decide (u.id = some uid)) then { s with logged := s.logged ++ [(uid, lid)] }
      else s
    | _, _ => s
  let s :=
    match rl.book_id, rl.id with
    | .vInt bid, some lid =>
      if s.books.any (fun b => decide (b.id = some bid)) then { s with readOn := s.readOn ++ [(bid, lid)] }
      else s
    | _, _ => s
  (s, rl)

/-- Model of `Book.delete` (graph_models.py 524-528): a plain, non-detaching
DELETE of the matched book node. -/
def Book.delete (s : GraphStore) (bid : Int) : GraphStore :=
  { s with books := s.books.filter fun b => !decide (b.id = some bid) }

/-- Is `rl` matched by `MATCH (b:Book {id: $bid})-[:READ_ON]->(rl)`? -/
def logReachableFromBook (s : GraphStore) (bid : Int) (rl : ReadingLog) : Bool :=
  s.books.any (fun b => decide (b.id = some bid)) &&
    (match rl.id with
     | some lid => decide ((bid, lid) ∈ s.readOn)
     | none => false)

/-- First statement of `DatabaseAdapter.delete_book_and_logs`
(db_adapter.py 305-309): `MATCH (b:Book {id: $book_id})-[:READ_ON]->(rl)
DETACH DELETE rl` removes every matched log node together with all of its
incident LOGGED and READ_ON edges. -/
def deleteLogsOfBook (s : GraphStore) (bid : Int) : GraphStore :=
  let dead := fun (lid : Int) =>
    s.logs.any fun rl => decide (rl.id = some lid) && logReachableFromBook s bid rl
  { s with
      logs := s.logs.filter fun rl => !logReachableFromBook s bid rl,
      logged := s.logged.filter fun e => !dead e.2,
      readOn := s.readOn.filter fun e => !dead e.2 }

/-- Second statement of `DatabaseAdapter.delete_book_and_logs`
(db_adapter.py 312-316): `MATCH (b:Book {id: $book_id}) DETACH DELETE b`
removes the book node and its incident OWNS and READ_ON edges. -/
def detachDeleteBook (s : GraphStore) (bid : Int) : GraphStore :=
  { s with
      books := s.books.filter fun b => !decide (b.id = some bid),
      owns := s.owns.filter fun e => decide (e.2 ≠ bid),
      readOn := s.readOn.filter fun e => decide (e.1 ≠ bid) }

/-- Model of `DatabaseAdapter.delete_book_and_logs` (db_adapter.py 299-316):
the reachable reading logs are deleted first, then the book itself is
detach-deleted. -/
def delete_book_and_logs (s : GraphStore) (bid : Int) : GraphStore :=
  detachDeleteBook (deleteLogsOfBook s bid) bid

/-- One id-column history step: `save()` of a fresh entity (no id yet) or a
`delete()` by id. -/
inductive TableOp where
  | saveNew : TableOp
  | del : Int → TableOp
deriving DecidableEq

/-- Run one history step over a node table's id column, logging every id that
`get_next_id` hands out. -/
def applyTableOp : List Int × List Int → TableOp → List Int × List Int
  | (stored, lg), .saveNew =>
    let i := get_next_id stored
    (stored ++ [i], lg ++ [i])
  | (stored, lg), .del i => (stored.filter (fun j => !decide (j = i)), lg)

/-- Run a history of save/delete operations, starting with an empty
assignment log. -/
def runTableOps (stored : List Int) (ops : List TableOp) : List Int × List Int :=
  ops.foldl applyTableOp (stored, [])

/-- The six CREATE statements of `KuzuDatabase.create_schema`
(kuzu_config.py 55-137); whitespace normalised, statement content and order
preserved. -/
def schemaQueries : List String :=
  ["CREATE NODE TABLE User(id INT64, uid STRING, username STRING, email STRING, password_hash STRING, is_admin BOOLEAN, is_active BOOLEAN, created_at TIMESTAMP, failed_login_attempts INT64, locked_until TIMESTAMP, last_login TIMESTAMP, share_current_reading BOOLEAN, share_reading_activity BOOLEAN, share_library BOOLEAN, password_must_change BOOLEAN, password_changed_at TIMESTAMP, reading_streak_offset INT64, PRIMARY KEY(id))",
   "CREATE NODE TABLE Book(id INT64, uid STRING, title STRING, author STRING, isbn STRING, start_date DATE, finish_date DATE, cover_url STRING, want_to_read BOOLEAN, library_only BOOLEAN, description STRING, published_date STRING, page_count INT64, categories STRING, publisher STRING, language STRING, average_rating DOUBLE, rating_count INT64, created_at TIMESTAMP, PRIMARY KEY(id))",
   "CREATE NODE TABLE ReadingLog(id INT64, date DATE, created_at TIMESTAMP, PRIMARY KEY(id))",
   "CREATE REL TABLE OWNS(FROM User TO Book, created_at TIMESTAMP)",
   "CREATE REL TABLE LOGGED(FROM User TO ReadingLog, created_at TIMESTAMP)",
   "CREATE REL TABLE READ_ON(FROM Book TO ReadingLog, created_at TIMESTAMP)"]

/-- Is the first list a prefix of the second (character match)? -/
def startsWithChars : List Char → List Char → Bool
  | [], _ => true
  | _ :: _, [] => false
  | p :: ps, c :: cs => p == c && startsWithChars ps cs

/-- Substring search over character lists. -/
def hasSubstrChars (pat : List Char) : List Char → Bool
  | [] => pat.isEmpty
  | c :: cs => startsWithChars pat (c :: cs) || hasSubstrChars pat cs

/-- Model of Python `"already exists" in str(e).lower()` (lower-casing done
character by character, as `str.lower` does for ASCII text). -/
def mentionsAlreadyExists (msg : String) : Bool :=
  hasSubstrChars "already exists".data (msg.data.map Char.toLower)

/-- Engine model of executing one CREATE ... TABLE statement against a catalog
of already-created statements: re-creating an existing table raises a message
containing "already exists" (Kuzu reports "... already exists in catalog."). -/
def execCreate (catalog : List String) (q : String) : Except String (List String) :=
  if q ∈ catalog then .error "Binder exception: Table already exists in catalog."
  else .ok (catalog ++ [q])

/-- The per-statement try/except of `create_schema` (kuzu_config.py 139-148):
an error whose lowercased message contains "already exists" is treated as
success with the catalog unchanged; any other error is re-raised. -/
def createSchemaStep (res : Except String (List String)) (keep : List String) :
    Except String (List String) :=
  match res with
  | .ok c => .ok c
  | .error e => if mentionsAlreadyExists e then .ok keep else .error e

/-- The statement loop of `create_schema`. -/
def createTables (catalog : List String) : List String → Except String (List String)
  | [] => .ok catalog
  | q :: rest =>
    match createSchemaStep (execCreate catalog q) catalog with
    | .ok c => createTables c rest
    | .error e => .error e

/-- Model of `KuzuDatabase.create_schema` (kuzu_config.py 53-148) against the
catalog engine. -/
def create_schema (catalog : List String) : Except String (List String) :=
  createTables catalog schemaQueries

/-- Concrete store for witnesses: alice (id 1) owns one book, bob (id 2) owns
none. -/
def twoUserStore : GraphStore :=
  { users := [{ id := some 1, username := .vStr "alice" },
              { id := some 2, username := .vStr "bob" }],
    books := [{ id := some 1, title := .vStr "Dune", author := .vStr "Frank Herbert",
                isbn := .vStr "9780441172719" }],
    owns := [(1, 1)] }

/-- Concrete store for the streak theorems: user 1 owns books finished on days
100, 99 and 98, user 2 owns books finished on days 100 and 97, and user 3
(stored offset 5) owns none. -/
def streakStore : GraphStore :=
  { users := [{ id := some 1 }, { id := some 2 },
              { id := some 3, reading_streak_offset := 5 }],
    books := [{ id := some 1, finish_date := .vDate 100 },
              { id := some 2, finish_date := .vDate 99 },
              { id := some 3, finish_date := .vDate 98 },
              { id := some 4, finish_date := .vDate 100 },
              { id := some 5, finish_date := .vDate 97 }],
    owns := [(1, 1), (1, 2), (1, 3), (2, 4), (2, 5)] }

/-- A user with a nonzero streak offset whose books (over `streakStore`)
finish on exactly today, yesterday and the day before. -/
def offsetUser : User := { id := some 1, reading_streak_offset := 1 }

/-- Store with one reading log linked to user 7 (LOGGED) and book 3 (READ_ON),
for the scope-injection theorems. -/
def logLinkStore : GraphStore :=
  { users := [{ id := some 7 }],
    books := [{ id := some 3 }],
    logs := [{ id := some 5, date := .vDate 9 }],
    logged := [(7, 5)],
    readOn := [(3, 5)] }

/-- The ids handed out by `get_next_id` over n consecutive fresh saves against
a table whose id column starts as `stored`. -/
def assignedIds (stored : List Int) : Nat → List Int
  | 0 => []
  | n + 1 => get_next_id stored :: assignedIds (stored ++ [get_next_id stored]) n

deriving instance DecidableEq for Except

/-- Python dict assignment with the same key and value twice is the identity
on the second application. -/
theorem paramsSet_idem : ∀ (p : Params) (k : String) (v : Value),
    paramsSet (paramsSet p k v) k v = paramsSet p k v
  | [], k, v => by simp [paramsSet]
  | (k0, v0) :: rest, k, v => by
    by_cases h : k0 = k
    · simp [paramsSet, h]
    · simp [paramsSet, h, paramsSet_idem rest k v]

/-- Lookup after assignment of the same key. -/
theorem paramsGet_set_self : ∀ (p : Params) (k : String) (v : Value),
    paramsGet (paramsSet p k v) k = some v
  | [], k, v => by simp [paramsSet, paramsGet]
  | (k0, v0) :: rest, k, v => by
    by_cases h : k0 = k
    · simp [paramsSet, h, paramsGet]
    · simp [paramsSet, h, paramsGet, paramsGet_set_self rest k v]

/-- Lookup after assignment of a different key. -/
theorem paramsGet_set_ne : ∀ (p : Params) (k0 k : String) (v : Value), k0 ≠ k →
    paramsGet (paramsSet p k0 v) k = paramsGet p k
  | [], k0, k, v, h => by simp [paramsSet, paramsGet, h]
  | (k1, v1) :: rest, k0, k, v, h => by
    by_cases h1 : k1 = k0
    · subst h1; simp [paramsSet, paramsGet, h]
    · by_cases h2 : k1 = k
      · subst h2; simp [paramsSet, Ne.symm h, paramsGet]
      · simp [paramsSet, h1, paramsGet, h2, paramsGet_set_ne rest k0 k v h]

/-- Re-assigning the value a key already holds leaves the dict unchanged. -/
theorem paramsSet_of_get : ∀ (p : Params) (k : String) (v : Value),
    paramsGet p k = some v → paramsSet p k v = p
  | [], k, v, h => by simp [paramsGet] at h
  | (k0, v0) :: rest, k, v, h => by
    by_cases h0 : k0 = k
    · subst h0
      simp [paramsGet] at h
      simp [paramsSet, h]
    · simp [paramsGet, h0] at h
      simp [paramsSet, h0, paramsSet_of_get rest k v h]

/-- Writing two distinct keys and then writing both again with the same values
is the identity on the second pass. -/
theorem paramsSet_two_idem (p : Params) (k1 k2 : String) (v1 v2 : Value) (hne : k1 ≠ k2) :
    paramsSet (paramsSet (paramsSet (paramsSet p k1 v1) k2 v2) k1 v1) k2 v2 =
      paramsSet (paramsSet p k1 v1) k2 v2 := by
  have h1 : paramsGet (paramsSet (paramsSet p k1 v1) k2 v2) k1 = some v1 := by
    rw [paramsGet_set_ne _ k2 k1 v2 (Ne.symm hne)]
    exact paramsGet_set_self _ k1 v1
  rw [paramsSet_of_get _ k1 v1 h1]
  exact paramsSet_of_get _ k2 v2 (paramsGet_set_self _ k2 v2)

/-- C3: for every query builder and any accumulated builder state, running a
terminal operation's query construction twice yields byte-identical query
text and an identical parameter mapping.  The Book and ReadingLog terminals
mutate only `self.params`, and idempotently, so recompiling from the
post-compile state reproduces the first result exactly; the UserQuery
terminals never touch the builder state (`count`/`first` read it, and `all`
deterministically raises before executing). -/
theorem builder_compilation_deterministic :
    (∀ q : BookQuery, (BookQuery.afterAll q).allQuery = q.allQuery) ∧
    (∀ q : BookQuery, (BookQuery.afterCount q).countQuery = q.countQuery) ∧
    (∀ q : ReadingLogQuery, (ReadingLogQuery.afterAll q).allQuery = q.allQuery) ∧
    (∀ q : ReadingLogQuery, (ReadingLogQuery.afterCount q).countQuery = q.countQuery) ∧
    (∀ q : UserQuery, q.countQuery.2 = q.params ∧ q.firstQuery.2 = q.params) ∧
    (∀ (s1 s2 : GraphStore) (q : UserQuery), UserQuery.all s1 q = UserQuery.all s2 q) := by
  have hrl : ∀ q : ReadingLogQuery,
      (ReadingLogQuery.afterAll q).patternAndParams = q.patternAndParams ∧
      (ReadingLogQuery.afterCount q).patternAndParams = q.patternAndParams := by
    intro q
    by_cases hu : q.user_filter.truthy <;> by_cases hb : q.book_filter.truthy <;>
      constructor <;>
      simp [ReadingLogQuery.afterAll, ReadingLogQuery.afterCount,
        ReadingLogQuery.allQuery, ReadingLogQuery.countQuery,
        ReadingLogQuery.patternAndParams, hu, hb, paramsSet_idem,
        paramsSet_two_idem _ "user_id" "book_id" _ _ (by decide)]
  refine ⟨?_, ?_, ?_, ?_, fun q => ⟨rfl, rfl⟩, fun _ _ _ => rfl⟩
  · intro q
    by_cases h : q.user_filter.truthy <;>
      simp [BookQuery.afterAll, BookQuery.allQuery, h, paramsSet_idem]
  · intro q
    by_cases h : q.user_filter.truthy <;>
      simp [BookQuery.afterCount, BookQuery.countQuery, h, paramsSet_idem]
  · intro q
    have h := (hrl q).1
    simp [ReadingLogQuery.allQuery, ReadingLogQuery.afterAll] at h ⊢
    simp [h]
  · intro q
    have h := (hrl q).2
    simp [ReadingLogQuery.countQuery, ReadingLogQuery.afterCount] at h ⊢
    simp [h]

/-- C5: `first()` coincides with the head of `limit(1).all()` for the Book and
ReadingLog builders, whose `first` is literally that composition.  For the
User builder the equivalence fails on every input: `UserQuery.all` raises
AttributeError unconditionally (the constructor's `self.order_by = None`
shadows the `order_by` method and `order_by_field` is never initialised),
while `UserQuery.first` compiles its own LIMIT 1 query and succeeds — the last
two conjuncts exhibit this divergence on a concrete store. -/
theorem first_vs_limit_all_divergence :
    (∀ (s : GraphStore) (q : BookQuery),
        BookQuery.first s q = (BookQuery.runAll s (q.limit 1)).head?) ∧
    (∀ (s : GraphStore) (q : ReadingLogQuery),
        ReadingLogQuery.first s q = (ReadingLogQuery.runAll s (q.limit 1)).head?) ∧
    (∀ (s : GraphStore) (q : UserQuery),
        UserQuery.all s (q.limit 1) = .error (.attributeError "order_by_field")) ∧
    UserQuery.first twoUserStore {} = some { id := some 1, username := .vStr "alice" } ∧
    UserQuery.all twoUserStore (UserQuery.limit {} 1) =
      .error (.attributeError "order_by_field") :=
  ⟨fun _ _ => rfl, fun _ _ => rfl, fun _ _ => rfl, by decide, rfl⟩

/-- C8: the lock-status check returns true exactly when `locked_until` is set
and lies strictly in the future; a past or unset `locked_until` reports
unlocked even though the field was never cleared. -/
theorem is_account_locked_iff_future (u : User) (now : Int) :
    is_account_locked u now = true ↔ ∃ t, u.locked_until = some t ∧ now < t := by
  cases h : u.locked_until with
  | none => simp [is_account_locked, h]
  | some t => simp [is_account_locked, h]

/-- C10: every entity returned by `ReadingLogQuery.all` carries the builder's
own user_id/book_id scope values, not data read from the store; in particular
an unscoped builder returns logs whose user_id and book_id are None even when
the stored log is linked to a user and a book (here user 7 and book 3). -/
theorem readinglog_all_copies_builder_scopes :
    (∀ (s : GraphStore) (q : ReadingLogQuery),
        (ReadingLogQuery.runAll s q).all
          (fun rl => decide (rl.user_id = q.user_filter) &&
                     decide (rl.book_id = q.book_filter)) = true) ∧
    ReadingLogQuery.runAll logLinkStore {} =
      [{ id := some 5, book_id := .vNone, user_id := .vNone, date := .vDate 9 }] ∧
    ReadingLogQuery.runAll logLinkStore
        (ReadingLogQuery.filter_by {} [("book_id", Value.vInt 3)]) =
      [{ id := some 5, book_id := .vInt 3, user_id := .vNone, date := .vDate 9 }] := by
  refine ⟨?_, by decide, by decide⟩
  intro s q
  simp [ReadingLogQuery.runAll, List.all_map, Function.comp]

/-- The early-return chain of `is_password_strong` is equivalent to the
conjunction of the five requirements. -/
theorem is_password_strong_iff (p : String) :
    is_password_strong p = true ↔
      (8 ≤ p.length ∧ (∃ c ∈ p.data, c.isUpper = true) ∧
       (∃ c ∈ p.data, c.isLower = true) ∧ (∃ c ∈ p.data, c.isDigit = true) ∧
       (∃ c ∈ p.data, c ∈ specialChars)) := by
  unfold is_password_strong
  split_ifs with h1 h2 h3 h4 h5 <;> simp_all [List.any_eq_true]

/-- C9: with validation enabled, `set_password` raises exactly when the
password fails the strength check (length below 8, or no uppercase letter, no
lowercase letter, no digit, or no special character), and on that error the
user's password_hash, password_changed_at and password_must_change are
untouched: the raise happens before any attribute assignment, so the result
pairs the unchanged user with the error message. -/
theorem set_password_validation (u : User) (p : String) (hf : String → String) (now : Int) :
    ((set_password u p true hf now).2.isSome = true ↔
      ¬(8 ≤ p.length ∧ (∃ c ∈ p.data, c.isUpper = true) ∧
        (∃ c ∈ p.data, c.isLower = true) ∧ (∃ c ∈ p.data, c.isDigit = true) ∧
        (∃ c ∈ p.data, c ∈ specialChars))) ∧
    ((set_password u p true hf now).2.isSome = true →
      set_password u p true hf now =
        (u, some "Password does not meet security requirements")) := by
  have hiff := is_password_strong_iff p
  cases hs : is_password_strong p with
  | true =>
    have hc := hiff.mp hs
    simp [set_password, hs, hc]
  | false =>
    have hc : ¬(8 ≤ p.length ∧ (∃ c ∈ p.data, c.isUpper = true) ∧
        (∃ c ∈ p.data, c.isLower = true) ∧ (∃ c ∈ p.data, c.isDigit = true) ∧
        (∃ c ∈ p.data, c ∈ specialChars)) := by
      intro h
      rw [hiff.mpr h] at hs
      exact Bool.noConfusion hs
    simp [set_password, hs, hc]

/-- Witness for C9 at the concrete weak password "weak": the call errors and
returns the unchanged default user. -/
theorem set_password_validation_witness :
    (set_password {} "weak" true (fun s => s) 0).2.isSome = true ∧
    set_password {} "weak" true (fun s => s) 0 =
      ({}, some "Password does not meet security requirements") :=
  ⟨by decide, (set_password_validation {} "weak" (fun s => s) 0).2 (by decide)⟩

/-- A duplicate-free list whose predicate holds at exactly one element
filters to that singleton. -/
theorem filter_eq_singleton {α : Type} (p : α → Bool) :
    ∀ (l : List α), l.Nodup → ∀ b, b ∈ l → p b = true →
      (∀ x ∈ l, p x = true → x = b) → l.filter p = [b]
  | [], _, b, hb, _, _ => absurd hb (List.not_mem_nil b)
  | a :: rest, hnd, b, hb, hpb, huniq => by
    have hnd' := List.nodup_cons.mp hnd
    rcases List.mem_cons.mp hb with h | h
    · subst h
      have hrest : rest.filter p = [] := by
        rw [List.filter_eq_nil_iff]
        intro x hx hpx
        have hxa := huniq x (List.mem_cons_of_mem _ hx) hpx
        exact hnd'.1 (hxa ▸ hx)
      simp [List.filter_cons, hpb, hrest]
    · have hpa : p a = false := by
        cases hpa : p a
        · rfl
        · exact absurd h (by
            rw [← huniq a (List.mem_cons_self a rest) hpa]
            exact hnd'.1)
      have htail := filter_eq_singleton p rest hnd'.2 b h hpb
        (fun x hx hpx => huniq x (List.mem_cons_of_mem _ hx) hpx)
      simp [List.filter_cons, hpa, htail]

/-- C1: `filter_by(user_id=X)` on the Book builder (and `user_id`/`book_id`
on the ReadingLog builder) stores X as the builder's scope instead of
appending an equality predicate; `all()` and `count()` then compile the
OWNS / LOGGED / READ_ON traversal patterns with X bound under the named
parameter; and the compiled count over the OWNS traversal yields 1 for a user
owning exactly one stored book and 0 for a user owning none.  (Saved users
have nonzero ids, hence the hypothesis that X is truthy.) -/
theorem bookquery_user_scope_traversal (s : GraphStore) (x : Int) (hx : x ≠ 0)
    (hu : userExistsWithId s (.vInt x) = true) :
    (∀ (q : BookQuery) (v : Value),
        BookQuery.filter_by q [("user_id", v)] = { q with user_filter := v }) ∧
    (∀ (q : ReadingLogQuery) (v : Value),
        ReadingLogQuery.filter_by q [("user_id", v)] = { q with user_filter := v }) ∧
    (∀ (q : ReadingLogQuery) (v : Value),
        ReadingLogQuery.filter_by q [("book_id", v)] = { q with book_filter := v }) ∧
    (BookQuery.filter_by {} [("user_id", Value.vInt x)]).allQuery =
      (bookTraversal ++ " RETURN b", [("user_id", Value.vInt x)]) ∧
    (BookQuery.filter_by {} [("user_id", Value.vInt x)]).countQuery =
      (bookTraversal ++ " RETURN COUNT(b) AS count", [("user_id", Value.vInt x)]) ∧
    (ReadingLogQuery.filter_by {} [("user_id", Value.vInt x)]).allQuery =
      ("MATCH " ++ rlPatternUser ++ " RETURN rl", [("user_id", Value.vInt x)]) ∧
    (ReadingLogQuery.filter_by {} [("book_id", Value.vInt x)]).allQuery =
      ("MATCH " ++ rlPatternBook ++ " RETURN rl", [("book_id", Value.vInt x)]) ∧
    (∀ b0, s.books.Nodup → b0 ∈ s.books → ownsBookB s x b0 = true →
        (∀ b ∈ s.books, ownsBookB s x b = true → b = b0) →
        BookQuery.runCount s (BookQuery.filter_by {} [("user_id", Value.vInt x)]) = 1) ∧
    ((∀ b ∈ s.books, ownsBookB s x b = false) →
        BookQuery.runCount s (BookQuery.filter_by {} [("user_id", Value.vInt x)]) = 0) := by
  have ht : (Value.vInt x).truthy = true := by simp [Value.truthy, hx]
  refine ⟨fun q v => rfl, fun q v => rfl, fun q v => rfl, ?_, ?_, ?_, ?_, ?_, ?_⟩
  · simp [BookQuery.filter_by, BookQuery.allQuery, ht, paramsSet]
  · simp [BookQuery.filter_by, BookQuery.countQuery, ht, paramsSet]
  · simp only [ReadingLogQuery.filter_by, ReadingLogQuery.allQuery,
      ReadingLogQuery.patternAndParams]
    simp [Value.truthy, hx, paramsSet]
    constructor
  · simp only [ReadingLogQuery.filter_by, ReadingLogQuery.allQuery,
      ReadingLogQuery.patternAndParams]
    simp [Value.truthy, hx, paramsSet]
    constructor
  · intro b0 hnd hmem hown huniq
    simp [BookQuery.runCount, BookQuery.filter_by, ht, ownedBooks, hu]
    rw [filter_eq_singleton _ s.books hnd b0 hmem hown huniq]
    rfl
  · intro hnone
    simp [BookQuery.runCount, BookQuery.filter_by, ht, ownedBooks, hu]
    intro b hb
    simp [hnone b hb]

/-- Witness for C1 over `twoUserStore`: alice (id 1) owns exactly one book and
counts 1, bob (id 2) owns none and counts 0; the compiled count query is the
OWNS traversal with the id bound as the user_id parameter. -/
theorem bookquery_user_scope_traversal_witness :
    BookQuery.runCount twoUserStore (BookQuery.filter_by {} [("user_id", Value.vInt 1)]) = 1 ∧
    BookQuery.runCount twoUserStore (BookQuery.filter_by {} [("user_id", Value.vInt 2)]) = 0 ∧
    (BookQuery.filter_by {} [("user_id", Value.vInt 1)]).countQuery =
      (bookTraversal ++ " RETURN COUNT(b) AS count", [("user_id", Value.vInt 1)]) := by
  refine ⟨?_, ?_, ?_⟩
  · exact (bookquery_user_scope_traversal twoUserStore 1 (by decide) (by decide)).2.2.2.2.2.2.2.1
      { id := some 1, title := .vStr "Dune", author := .vStr "Frank Herbert",
        isbn := .vStr "9780441172719" }
      (by decide) (by decide) (by decide) (by decide)
  · exact (bookquery_user_scope_traversal twoUserStore 2 (by decide) (by decide)).2.2.2.2.2.2.2.2
      (by decide)
  · exact (bookquery_user_scope_traversal twoUserStore 1 (by decide) (by decide)).2.2.2.2.1

/-- Filtering keeps only elements satisfying the predicate. -/
theorem all_filter_self {α : Type} (p : α → Bool) (l : List α) :
    (l.filter p).all p = true := by
  simp [List.all_eq_true]

/-- After `delete_book_and_logs`, no Book node matches the deleted id. -/
theorem bookExists_after_delete (s : GraphStore) (bid : Int) :
    bookExistsWithId (delete_book_and_logs s bid) (Value.vInt bid) = false := by
  rw [Bool.eq_false_iff]
  intro hex
  rcases List.any_eq_true.mp hex with ⟨b, hb, heq⟩
  have hmem : b ∈ s.books.filter (fun b => !decide (b.id = some bid)) := hb
  have hne : ¬(b.id = some bid) := by
    have := List.of_mem_filter hmem
    simpa using this
  cases hid : b.id with
  | none => simp [Book.getField, hid, valueEqB] at heq
  | some i =>
    simp [Book.getField, hid, valueEqB] at heq
    exact hne (by rw [hid, heq])

/-- C2: `delete_book_and_logs` removes every ReadingLog reachable from the
book over READ_ON (first statement) and then detach-deletes the book itself
(second statement): afterward no log that was reachable in the original store
survives, the book node is gone, no OWNS or READ_ON edge incident to the book
remains, and the ReadingLog query scoped to that book returns an empty result
and count 0.  Stated for an arbitrary positive book id k+1 (saved books have
positive ids). -/
theorem delete_book_and_logs_removes_logs_then_book (s : GraphStore) (k : Nat) :
    ((delete_book_and_logs s ((k : Int) + 1)).logs.all
        (fun rl => !logReachableFromBook s ((k : Int) + 1) rl) = true) ∧
    ((delete_book_and_logs s ((k : Int) + 1)).books.all
        (fun b => !decide (b.id = some ((k : Int) + 1))) = true) ∧
    ((delete_book_and_logs s ((k : Int) + 1)).owns.all
        (fun e => decide (e.2 ≠ (k : Int) + 1)) = true) ∧
    ((delete_book_and_logs s ((k : Int) + 1)).readOn.all
        (fun e => decide (e.1 ≠ (k : Int) + 1)) = true) ∧
    ReadingLogQuery.runAll (delete_book_and_logs s ((k : Int) + 1))
      (ReadingLogQuery.filter_by {} [("book_id", Value.vInt ((k : Int) + 1))]) = [] ∧
    ReadingLogQuery.runCount (delete_book_and_logs s ((k : Int) + 1))
      (ReadingLogQuery.filter_by {} [("book_id", Value.vInt ((k : Int) + 1))]) = 0 := by
  have hbid : ((k : Int) + 1) ≠ 0 := by omega
  have hex := bookExists_after_delete s ((k : Int) + 1)
  refine ⟨?_, ?_, ?_, ?_, ?_, ?_⟩
  · exact all_filter_self _ s.logs
  · exact all_filter_self _ ((deleteLogsOfBook s ((k : Int) + 1)).books)
  · exact all_filter_self _ ((deleteLogsOfBook s ((k : Int) + 1)).owns)
  · exact all_filter_self _ ((deleteLogsOfBook s ((k : Int) + 1)).readOn)
  · rw [show ReadingLogQuery.filter_by {} [("book_id", Value.vInt ((k : Int) + 1))] =
        ({ book_filter := Value.vInt ((k : Int) + 1) } : ReadingLogQuery) from rfl]
    simp [ReadingLogQuery.runAll, rlMatches, Value.truthy, hbid, hex, applyOrder, applyLimit]
  · rw [show ReadingLogQuery.filter_by {} [("book_id", Value.vInt ((k : Int) + 1))] =
        ({ book_filter := Value.vInt ((k : Int) + 1) } : ReadingLogQuery) from rfl]
    simp [ReadingLogQuery.runCount, rlMatches, Value.truthy, hbid, hex]

/-- The fold base is bounded by the fold of max. -/
theorem le_foldl_max_base : ∀ (xs : List Int) (x : Int), x ≤ xs.foldl max x
  | [], x => le_refl x
  | y :: ys, x => le_trans (le_max_left x y) (le_foldl_max_base ys (max x y))

/-- Every member is bounded by the fold of max. -/
theorem le_foldl_max_mem : ∀ (xs : List Int) (x y : Int), y ∈ xs → y ≤ xs.foldl max x
  | [], _, _, h => absurd h (List.not_mem_nil _)
  | z :: zs, x, y, h => by
    rcases List.mem_cons.mp h with h | h
    · subst h
      exact le_trans (le_max_right x y) (le_foldl_max_base zs (max x y))
    · exact le_foldl_max_mem zs (max x z) y h

/-- `get_next_id` is strictly greater than every stored id. -/
theorem mem_lt_get_next_id (ids : List Int) (i : Int) (h : i ∈ ids) :
    i < get_next_id ids := by
  cases ids with
  | nil => exact absurd h (List.not_mem_nil _)
  | cons x xs =>
    rcases List.mem_cons.mp h with h | h
    · subst h
      have hb := le_foldl_max_base xs i
      simp [get_next_id, maxId]
      omega
    · have hb := le_foldl_max_mem xs x i h
      simp [get_next_id, maxId]
      omega

/-- Freshly assigned ids are pairwise increasing and dominate every id stored
when the run began. -/
theorem assignedIds_spec : ∀ (n : Nat) (stored : List Int),
    (assignedIds stored n).Pairwise (· < ·) ∧
    (∀ i ∈ assignedIds stored n, ∀ j ∈ stored, j < i)
  | 0, stored => ⟨List.Pairwise.nil, by intro i hi; exact absurd hi (List.not_mem_nil _)⟩
  | n + 1, stored => by
    obtain ⟨ihp, ihm⟩ := assignedIds_spec n (stored ++ [get_next_id stored])
    rw [assignedIds]
    constructor
    · refine List.Pairwise.cons ?_ ihp
      intro y hy
      exact ihm y hy (get_next_id stored) (by simp)
    · intro i hi j hj
      rcases List.mem_cons.mp hi with h | h
      · subst h
        exact mem_lt_get_next_id stored j hj
      · exact ihm i h j (by simp [hj])

/-- A run of n fresh saves appends exactly the assigned ids to the table and
logs them in order. -/
theorem runOps_saves : ∀ (n : Nat) (stored lg : List Int),
    (List.replicate n TableOp.saveNew).foldl applyTableOp (stored, lg) =
      (stored ++ assignedIds stored n, lg ++ assignedIds stored n)
  | 0, stored, lg => by simp [assignedIds]
  | n + 1, stored, lg => by
    simp only [List.replicate, List.foldl]
    rw [show applyTableOp (stored, lg) TableOp.saveNew =
        (stored ++ [get_next_id stored], lg ++ [get_next_id stored]) from rfl]
    rw [runOps_saves n (stored ++ [get_next_id stored]) (lg ++ [get_next_id stored])]
    simp [assignedIds]

/-- C6 counterexample: save a fresh entity (assigned id 1), delete it, save
another fresh entity — `get_next_id` hands out id 1 again.  The assignment
log [1, 1] repeats an id, so once a deletion happens ids are reused and the
assignment sequence is not monotone, contrary to the claim. -/
theorem id_reused_after_delete :
    runTableOps [] [TableOp.saveNew, TableOp.del 1, TableOp.saveNew] = ([1], [1, 1]) ∧
    ¬ ([1, 1] : List Int).Nodup ∧ ¬ List.Chain' (· < ·) ([1, 1] : List Int) :=
  ⟨by decide, by decide, by simp [List.chain'_cons]⟩

/-- C6 (amended): an entity saved without id receives
`get_next_id` = current maximum stored id + 1 (1 on an empty table) and a
truthy id survives later saves unchanged; every freshly assigned id is
strictly greater than every currently stored id, so over any deletion-free
history the assigned ids are strictly increasing, pairwise distinct, and
never collide with a pre-existing id.  (After deleting the maximum-id entity
the next save may reuse that id, as the counterexample shows.) -/
theorem id_assignment_monotone_without_deletes (s : GraphStore) (b : Book)
    (stored : List Int) (n k : Nat) :
    get_next_id [] = 1 ∧
    (Book.save s { b with id := none }).2.id = some (get_next_id (bookIds s)) ∧
    (Book.save s { b with id := some ((k : Int) + 1) }).2.id = some ((k : Int) + 1) ∧
    stored.all (fun i => decide (i < get_next_id stored)) = true ∧
    runTableOps stored (List.replicate n TableOp.saveNew) =
      (stored ++ assignedIds stored n, assignedIds stored n) ∧
    List.Chain' (· < ·) (assignedIds stored n) ∧
    (assignedIds stored n).Nodup ∧
    (assignedIds stored n).all (fun i => !decide (i ∈ stored)) = true := by
  obtain ⟨hp, hm⟩ := assignedIds_spec n stored
  have ht : (((k : Int) + 1) != 0) = true := by
    simp [bne_iff_ne]
    omega
  refine ⟨rfl, ?_, ?_, ?_, ?_, ?_, ?_, ?_⟩
  · rfl
  · simp [Book.save, idTruthy, ht]
  · simp [List.all_eq_true]
    intro i hi
    exact mem_lt_get_next_id stored i hi
  · have := runOps_saves n stored []
    simpa [runTableOps] using this
  · exact List.chain'_iff_pairwise.mpr hp
  · exact hp.imp (fun h => ne_of_lt h)
  · simp [List.all_eq_true]
    intro i hi hmem
    exact absurd (hm i hi i hmem) (lt_irrefl i)

/-- A successful `createTables` run leaves every attempted statement and every
pre-existing catalog entry in the final catalog. -/
theorem createTables_ok_mem : ∀ (qs catalog c2 : List String),
    createTables catalog qs = .ok c2 →
    (∀ q ∈ qs, q ∈ c2) ∧ (∀ q ∈ catalog, q ∈ c2)
  | [], catalog, c2, h => by
    simp [createTables] at h
    subst h
    exact ⟨by simp, fun q hq => hq⟩
  | q :: rest, catalog, c2, h => by
    have hmsg : mentionsAlreadyExists
        "Binder exception: Table already exists in catalog." = true := by decide
    rw [createTables] at h
    by_cases hq : q ∈ catalog
    · simp [execCreate, hq, createSchemaStep, hmsg] at h
      obtain ⟨h1, h2⟩ := createTables_ok_mem rest catalog c2 h
      refine ⟨?_, h2⟩
      intro p hp
      rcases List.mem_cons.mp hp with rfl | hp
      · exact h2 p hq
      · exact h1 p hp
    · simp [execCreate, hq, createSchemaStep] at h
      obtain ⟨h1, h2⟩ := createTables_ok_mem rest (catalog ++ [q]) c2 h
      refine ⟨?_, fun p hp => h2 p (by simp [hp])⟩
      intro p hp
      rcases List.mem_cons.mp hp with rfl | hp
      · exact h2 p (by simp)
      · exact h1 p hp

/-- When every statement's table already exists, the loop swallows each
"already exists" failure and returns with the catalog unchanged. -/
theorem createTables_all_exist : ∀ (qs catalog : List String),
    (∀ q ∈ qs, q ∈ catalog) → createTables catalog qs = .ok catalog
  | [], _, _ => rfl
  | q :: rest, catalog, hall => by
    have hmsg : mentionsAlreadyExists
        "Binder exception: Table already exists in catalog." = true := by decide
    have hq : q ∈ catalog := hall q (List.mem_cons_self q rest)
    rw [createTables]
    simp [execCreate, hq, createSchemaStep, hmsg]
    exact createTables_all_exist rest catalog (fun p hp => hall p (List.mem_cons_of_mem _ hp))

/-- C7: `create_schema` attempts each of the six creation statements in
order; a failure whose lowercased message contains "already exists" is
treated as success and not propagated, any other failure is re-raised, and a
second invocation after a successful run returns without error. -/
theorem create_schema_idempotent :
    (∀ (e : String) (keep : List String), mentionsAlreadyExists e = true →
        createSchemaStep (.error e) keep = .ok keep) ∧
    (∀ (e : String) (keep : List String), mentionsAlreadyExists e = false →
        createSchemaStep (.error e) keep = .error e) ∧
    (∀ catalog c2, create_schema catalog = .ok c2 → create_schema c2 = .ok c2) := by
  refine ⟨?_, ?_, ?_⟩
  · intro e keep h
    simp [createSchemaStep, h]
  · intro e keep h
    simp [createSchemaStep, h]
  · intro catalog c2 h
    exact createTables_all_exist schemaQueries c2
      (createTables_ok_mem schemaQueries catalog c2 h).1

set_option maxRecDepth 20000 in
/-- Witness for C7: from an empty catalog the first run creates all six
tables; re-running over the resulting catalog succeeds without error (via the
idempotence theorem); the step level swallows a concrete "already exists"
message and re-raises a different failure. -/
theorem create_schema_idempotent_witness :
    create_schema [] = .ok schemaQueries ∧
    create_schema schemaQueries = .ok schemaQueries ∧
    createSchemaStep (.error "Binder exception: Table already exists in catalog.") []
      = .ok [] ∧
    createSchemaStep (.error "copy failed") [] = .error "copy failed" := by
  have h0 : create_schema [] = .ok schemaQueries := by decide
  exact ⟨h0, create_schema_idempotent.2.2 [] schemaQueries h0,
    create_schema_idempotent.1 _ [] (by decide),
    create_schema_idempotent.2.1 _ [] (by decide)⟩

/-- `sortDesc` permutes its input. -/
theorem sortDesc_perm (l : List Int) : List.Perm (sortDesc l) l :=
  List.perm_insertionSort (· ≥ ·) l

/-- `sortDesc` sorts weakly descending. -/
theorem sortDesc_sorted (l : List Int) : (sortDesc l).Sorted (· ≥ ·) :=
  List.sorted_insertionSort (· ≥ ·) l

/-- The descending sort of the deduplicated dates is determined by membership
alone: it equals any duplicate-free descending list with the same members. -/
theorem sortDesc_dedup_eq (l ds : List Int) (hs : ds.Sorted (· ≥ ·))
    (hn : ds.Nodup) (hm : ∀ x, x ∈ l ↔ x ∈ ds) : sortDesc l.dedup = ds := by
  have hperm : List.Perm (sortDesc l.dedup) l.dedup := sortDesc_perm l.dedup
  have hnd : (sortDesc l.dedup).Nodup := hperm.nodup_iff.mpr (List.nodup_dedup l)
  have hmem : ∀ x, x ∈ sortDesc l.dedup ↔ x ∈ ds := by
    intro x
    rw [hperm.mem_iff, List.mem_dedup]
    exact hm x
  exact List.eq_of_perm_of_sorted
    ((List.perm_ext_iff_of_nodup hnd hn).mpr hmem) (sortDesc_sorted l.dedup) hs

/-- Streak computation when there are no collected finish dates: the offset
alone is returned (whether the book list is empty or none of the books has a
finish date). -/
theorem reading_streak_calc_no_dates (t off : Int) (books : List Book)
    (h : finishDatesOf books = []) : reading_streak_calc t off books = off := by
  unfold reading_streak_calc
  cases hb : books.isEmpty
  · simp [hb, h, sortDesc, List.insertionSort]
  · simp [hb]

/-- Streak computation over finish dates exactly {t, t-1, t-2}: three
consecutive days ending today give streak 3, plus the offset. -/
theorem reading_streak_calc_three (t off : Int) (books : List Book)
    (h : ∀ d, d ∈ finishDatesOf books ↔ (d = t ∨ d = t - 1 ∨ d = t - 2)) :
    reading_streak_calc t off books = 3 + off := by
  have hsort : sortDesc (finishDatesOf books).dedup = [t, t - 1, t - 2] := by
    apply sortDesc_dedup_eq _ _ ?_ ?_ ?_
    · simp [List.sorted_cons]
      omega
    · simp
      omega
    · intro x
      rw [h x]
      simp
  cases books with
  | nil =>
    exact absurd ((h t).mpr (Or.inl rfl)) (by simp [finishDatesOf])
  | cons b bs =>
    unfold reading_streak_calc
    rw [hsort]
    simp only [List.isEmpty_cons, if_false, Bool.false_eq_true]
    rw [if_neg (by omega)]
    simp [streakLoop, show t - 1 - 1 = t - 2 from by omega]

/-- Streak computation over finish dates exactly {t, t-3}: the gap after
today stops the count at 1, plus the offset. -/
theorem reading_streak_calc_gap (t off : Int) (books : List Book)
    (h : ∀ d, d ∈ finishDatesOf books ↔ (d = t ∨ d = t - 3)) :
    reading_streak_calc t off books = 1 + off := by
  have hsort : sortDesc (finishDatesOf books).dedup = [t, t - 3] := by
    apply sortDesc_dedup_eq _ _ ?_ ?_ ?_
    · simp [List.sorted_cons]
    · simp
      omega
    · intro x
      rw [h x]
      simp
  cases books with
  | nil =>
    exact absurd ((h t).mpr (Or.inl rfl)) (by simp [finishDatesOf])
  | cons b bs =>
    unfold reading_streak_calc
    rw [hsort]
    simp only [List.isEmpty_cons, if_false, Bool.false_eq_true]
    rw [if_neg (by omega)]
    simp [streakLoop, show ¬(t - 3 = t - 1) from by omega]

/-- C4 counterexample: over `streakStore`, user 1 (object offset 1) has
distinct finish dates exactly {today, yesterday, two days ago} with today =
100, yet `get_reading_streak` returns 4, not the claimed 3: the stored offset
is added in every branch, not only in the no-dates branch. -/
theorem reading_streak_offset_counterexample :
    finishDatesOf (BookQuery.runAll streakStore
      (BookQuery.filter_by {} [("user_id", Value.vInt 1)])) = [100, 99, 98] ∧
    User.get_reading_streak streakStore 100 offsetUser = 4 :=
  ⟨by decide, by decide⟩

/-- C4 (amended): the reading streak equals 3 plus the user's stored
reading_streak_offset when the user's books have distinct finish dates
exactly {today, yesterday, two days ago}; 1 plus the offset when they are
exactly {today, three days ago}; and exactly the offset when no finish dates
exist (no books, or none finished). -/
theorem reading_streak_cases (s : GraphStore) (u : User) (t : Int) :
    ((∀ d, d ∈ finishDatesOf (BookQuery.runAll s (BookQuery.filter_by {}
          [("user_id", match u.id with | some i => Value.vInt i | none => Value.vNone)]))
        ↔ (d = t ∨ d = t - 1 ∨ d = t - 2)) →
      User.get_reading_streak s t u = 3 + u.reading_streak_offset) ∧
    ((∀ d, d ∈ finishDatesOf (BookQuery.runAll s (BookQuery.filter_by {}
          [("user_id", match u.id with | some i => Value.vInt i | none => Value.vNone)]))
        ↔ (d = t ∨ d = t - 3)) →
      User.get_reading_streak s t u = 1 + u.reading_streak_offset) ∧
    (finishDatesOf (BookQuery.runAll s (BookQuery.filter_by {}
          [("user_id", match u.id with | some i => Value.vInt i | none => Value.vNone)]))
        = [] →
      User.get_reading_streak s t u = u.reading_streak_offset) := by
  refine ⟨?_, ?_, ?_⟩
  · intro h
    exact reading_streak_calc_three t u.reading_streak_offset _ h
  · intro h
    exact reading_streak_calc_gap t u.reading_streak_offset _ h
  · intro h
    exact reading_streak_calc_no_dates t u.reading_streak_offset _ h

/-- Witness for C4 over `streakStore` with today = 100: user 1 (dates
100/99/98, offset 0) streaks 3, user 2 (dates 100/97, offset 0) streaks 1,
user 3 (no books, offset 5) streaks 5. -/
theorem reading_streak_cases_witness :
    User.get_reading_streak streakStore 100 { id := some 1 } = 3 ∧
    User.get_reading_streak streakStore 100 { id := some 2 } = 1 ∧
    User.get_reading_streak streakStore 100
      { id := some 3, reading_streak_offset := 5 } = 5 := by
  refine ⟨?_, ?_, ?_⟩
  · have h := (reading_streak_cases streakStore { id := some 1 } 100).1 ?_
    · simpa using h
    · intro d
      rw [show finishDatesOf (BookQuery.runAll streakStore (BookQuery.filter_by {}
          [("user_id", Value.vInt 1)])) = [100, 99, 98] from by decide]
      simp
  · have h := (reading_streak_cases streakStore { id := some 2 } 100).2.1 ?_
    · simpa using h
    · intro d
      rw [show finishDatesOf (BookQuery.runAll streakStore (BookQuery.filter_by {}
          [("user_id", Value.vInt 2)])) = [100, 97] from by decide]
      simp
  · have h := (reading_streak_cases streakStore
        { id := some 3, reading_streak_offset := 5 } 100).2.2 ?_
    · simpa using h
    · decide
